import Mathlib

/-!
Shallow embedding of `src/SingleSCD40.py`: the monitoring/alerting engine of
the SingleSCD40 repository.  Temperatures, humidity and CO2 values are
modelled as rationals (the Python floats are only compared with `>=`/`<=`
against configured thresholds); time stamps and delays are rationals in
seconds.  External effects (readings log, Slack sends, Adafruit IO sends,
error log, sleeps) are recorded as an explicit event trace.
-/

namespace SCD40

/-- The settings record produced by `read_settings_from_conf`
(src/SingleSCD40.py lines 86-115): `getfloat` keys become rationals,
`getint` keys integers, the rest strings.  Credential strings that no
modelled computation inspects (Slack token, Adafruit user/key) are omitted;
`SLACK_CHANNEL` is kept because `send_slack_alert` re-reads it from the
configuration file on every send. -/
structure Settings where
  SENSOR_LOCATION_NAME : String
  MINUTES_BETWEEN_READS : ℤ
  SENSOR_THRESHOLD_TEMP : ℚ
  SENSOR_LOWER_THRESHOLD_TEMP : ℚ
  SENSOR_CO2_THRESHOLD : ℚ
  THRESHOLD_COUNT : ℤ
  SLACK_CHANNEL : String
  ADAFRUIT_IO_GROUP_NAME : String
  ADAFRUIT_IO_TEMP_FEED : String
  ADAFRUIT_IO_HUMIDITY_FEED : String
  ADAFRUIT_IO_CO2_FEED : String
  deriving DecidableEq

/-- `celsius_to_fahrenheit` (src/SingleSCD40.py line 69). -/
def celsius_to_fahrenheit (celsius : ℚ) : ℚ := (celsius * 9 / 5) + 32

/-- The global `alert_states` dictionary (src/SingleSCD40.py lines 44-48). -/
structure AlertStates where
  high_temp : Bool
  low_temp : Bool
  high_co2 : Bool
  deriving DecidableEq

/-- `alert_states` initial value: all three flags `False`
(src/SingleSCD40.py lines 44-48). -/
def initialAlertStates : AlertStates := ⟨false, false, false⟩

/-- The three monitored quantities, keys of `alert_states`. -/
inductive Quantity
  | high_temp
  | low_temp
  | high_co2
  deriving DecidableEq

/-- Projection of one flag of `alert_states`. -/
def flagOf (q : Quantity) (st : AlertStates) : Bool :=
  match q with
  | .high_temp => st.high_temp
  | .low_temp => st.low_temp
  | .high_co2 => st.high_co2

/-- One Slack message produced by the alert checks: the quantity it is
about, whether it is an alert (`true`, the quantity entered the alarmed
state) or a recovery message (`false`), and the Slack channel read from the
configuration file by `send_slack_alert` at send time
(src/SingleSCD40.py lines 50-57, 282-314). -/
structure Notification where
  q : Quantity
  isAlert : Bool
  channel : String
  deriving DecidableEq

/-- One threshold check of `run_monitoring` (the shape shared by
src/SingleSCD40.py lines 283-292, 295-304, 307-314): compare the current
boolean condition against the stored flag; when they differ, store the
condition and send one message whose polarity is the new flag value; when
they agree, do nothing.  Returns the new flag and the optional message
polarity. -/
def checkAlert (isExceed armed : Bool) : Bool × Option Bool :=
  if isExceed != armed then (isExceed, some isExceed) else (armed, none)

/-- The three alert checks of one evaluated poll cycle, over the already
computed boolean conditions `c1` (high temperature), `c2` (low temperature)
and `c3` (high CO2), in source order (src/SingleSCD40.py lines 282-314).
`channel` is the Slack channel that `send_slack_alert` reads from the
configuration file when a message is sent. -/
def evalCore (c1 c2 c3 : Bool) (channel : String) (st : AlertStates) :
    AlertStates × List Notification :=
  let p1 := checkAlert c1 st.high_temp
  let p2 := checkAlert c2 st.low_temp
  let p3 := checkAlert c3 st.high_co2
  (⟨p1.1, p2.1, p3.1⟩,
    (p1.2.map fun b => Notification.mk Quantity.high_temp b channel).toList ++
    (p2.2.map fun b => Notification.mk Quantity.low_temp b channel).toList ++
    (p3.2.map fun b => Notification.mk Quantity.high_co2 b channel).toList)

/-- The alert-check section of `run_monitoring` for one reading
(src/SingleSCD40.py lines 282-314): `settings` is the dictionary bound once
before the loop, whose thresholds the comparisons use; `store` is the
configuration file contents at send time, consulted only by
`send_slack_alert` for the Slack channel. -/
def evaluateReading (settings store : Settings) (st : AlertStates)
    (temperature_f co2 : ℚ) : AlertStates × List Notification :=
  evalCore
    (decide (temperature_f ≥ settings.SENSOR_THRESHOLD_TEMP))
    (decide (temperature_f ≤ settings.SENSOR_LOWER_THRESHOLD_TEMP))
    (decide (co2 ≥ settings.SENSOR_CO2_THRESHOLD))
    store.SLACK_CHANNEL st

/-- One sensor sample as read on an evaluated tick
(src/SingleSCD40.py lines 275-278). -/
structure Reading where
  temperature_c : ℚ
  relative_humidity : ℚ
  co2 : ℚ
  deriving DecidableEq

/-- The messages of `(evalCore ...).2` that concern quantity `q`. -/
def notifsFor (q : Quantity) (ns : List Notification) : List Notification :=
  ns.filter fun n => n.q == q

/-- How many messages concern quantity `q`. -/
def notifCount (q : Quantity) (ns : List Notification) : ℕ :=
  (notifsFor q ns).length

/-- The condition the source computes for quantity `q`
(src/SingleSCD40.py lines 283, 295, 307). -/
def exceedCond (settings : Settings) (q : Quantity)
    (temperature_f co2 : ℚ) : Bool :=
  match q with
  | .high_temp => decide (temperature_f ≥ settings.SENSOR_THRESHOLD_TEMP)
  | .low_temp => decide (temperature_f ≤ settings.SENSOR_LOWER_THRESHOLD_TEMP)
  | .high_co2 => decide (co2 ≥ settings.SENSOR_CO2_THRESHOLD)

/-- Folding the alert checks of `run_monitoring` over a list of readings,
collecting every Slack message in order. -/
def runReadings (settings store : Settings) (st : AlertStates) :
    List Reading → AlertStates × List Notification
  | [] => (st, [])
  | r :: rs =>
    let p := evaluateReading settings store st
      (celsius_to_fahrenheit r.temperature_c) r.co2
    let rest := runReadings settings store p.1 rs
    (rest.1, p.2 ++ rest.2)

/-- How many times the `alert_states` flag of quantity `q` changes value
along the run of `runReadings` from state `st` over the given readings. -/
def flagTransitions (settings store : Settings) (q : Quantity)
    (st : AlertStates) : List Reading → ℕ
  | [] => 0
  | r :: rs =>
    let st' := (evaluateReading settings store st
      (celsius_to_fahrenheit r.temperature_c) r.co2).1
    (if flagOf q st' != flagOf q st then 1 else 0) +
      flagTransitions settings store q st' rs

/-- Observable effects of the monitoring loop: the readings-log line
(`logger.info`, src line 280), a Slack message, one `send_to_adafruit`
call (src lines 317-319), an error-log line (`log_error`) and a
`time.sleep` of the given number of seconds. -/
inductive Event
  | logReading (temperature_f relative_humidity co2 : ℚ)
  | notify (n : Notification)
  | telemetry (group feed : String) (value : ℚ)
  | logError (msg : String)
  | sleepSecs (s : ℚ)
  deriving DecidableEq

/-- The loop-local state of `run_monitoring`: `last_read_time`
(src line 267) and the global `alert_states`. -/
structure LoopState where
  last_read_time : ℚ
  alerts : AlertStates
  deriving DecidableEq

/-- Result of consulting `sensor.data_ready` and, when ready, the sensor
registers (src lines 273-278). -/
inductive SensorPoll
  | notReady
  | ready (r : Reading)
  deriving DecidableEq

/-- What one iteration of the `while` loop observes from outside:
`time.time()` and the sensor poll; `Except.error msg` models an exception
raised inside the tick body (e.g. by the sensor driver) before any effect
of the tick happened.  Slack and Adafruit IO failures are NOT modelled as
raised exceptions: `send_slack_alert` and `send_to_adafruit` catch their
own exceptions and return `False` (src lines 50-66, 126-168). -/
structure TickInput where
  now : ℚ
  poll : Except String SensorPoll

/-- Body of one loop iteration, the `if current_time - last_read_time >= ...`
block (src/SingleSCD40.py lines 271-321), without the trailing
`time.sleep(5)`.  `settings` is the dictionary read once before the loop;
`store` is the configuration file contents at this tick, consulted only
for the Slack channel inside `send_slack_alert`. -/
def pollTick (settings store : Settings) (st : LoopState)
    (current_time : ℚ) (poll : SensorPoll) : LoopState × List Event :=
  if current_time - st.last_read_time ≥ (settings.MINUTES_BETWEEN_READS : ℚ) * 60 then
    match poll with
    | .notReady => (st, [])
    | .ready r =>
      let temperature_f := celsius_to_fahrenheit r.temperature_c
      let p := evaluateReading settings store st.alerts temperature_f r.co2
      (⟨current_time, p.1⟩,
        Event.logReading temperature_f r.relative_humidity r.co2 ::
        (p.2.map Event.notify ++
          [Event.telemetry settings.ADAFRUIT_IO_GROUP_NAME
             settings.ADAFRUIT_IO_TEMP_FEED temperature_f,
           Event.telemetry settings.ADAFRUIT_IO_GROUP_NAME
             settings.ADAFRUIT_IO_HUMIDITY_FEED r.relative_humidity,
           Event.telemetry settings.ADAFRUIT_IO_GROUP_NAME
             settings.ADAFRUIT_IO_CO2_FEED r.co2]))
  else (st, [])

/-- One full iteration of the `while not shutdown_event.is_set()` loop
(src lines 269-326): the tick body followed by `time.sleep(5)`, all wrapped
in `try ... except Exception: log_error(...); time.sleep(5)`.  A raised
exception is caught at the tick boundary, logged, followed by the fixed
5-second backoff, and leaves the loop state untouched. -/
def loopIter (settings store : Settings) (st : LoopState)
    (inp : TickInput) : LoopState × List Event :=
  match inp.poll with
  | .ok p =>
    let r := pollTick settings store st inp.now p
    (r.1, r.2 ++ [Event.sleepSecs 5])
  | .error e =>
    (st, [Event.logError ("Error in monitoring loop: " ++ e), Event.sleepSecs 5])

/-- The monitoring loop over a finite schedule of iterations; each entry
carries the configuration file contents visible at that tick (the control
surface may rewrite the file between ticks) and the tick's inputs.  The
list ends when `shutdown_event` is observed set.  `settings` is fixed: it
is the dictionary `read_settings_from_conf` returned once, before the loop
(src line 244). -/
def runLoop (settings : Settings) (st : LoopState) :
    List (Settings × TickInput) → LoopState × List Event
  | [] => (st, [])
  | (store, inp) :: rest =>
    let p := loopIter settings store st inp
    let r := runLoop settings p.1 rest
    (r.1, p.2 ++ r.2)

/-- Outcome of the Initializing phase of `run_monitoring`
(src lines 242-264): either loading the settings / building the Adafruit
IO client raises, or initializing the sensor raises, or both succeed and
yield the settings dictionary the loop will use. -/
inductive InitOutcome
  | settingsFail (msg : String)
  | sensorFail (msg : String)
  | ok (settings : Settings)
  deriving DecidableEq

/-- Trace of one execution of `run_monitoring` (src lines 238-326). -/
structure MonitoringRun where
  initLog : List Event
  exitCode : Option ℕ
  loopEvents : List Event
  finalState : Option LoopState
  deriving DecidableEq

/-- `run_monitoring`: on an Initializing failure, `log_error` then
`sys.exit(1)` — i.e. raise `SystemExit(1)` — and the loop is never entered;
otherwise run the loop with `last_read_time = 0` and all alert flags
`False` (src lines 242-269). -/
def run_monitoring (init : InitOutcome)
    (script : List (Settings × TickInput)) : MonitoringRun :=
  match init with
  | .settingsFail m =>
    ⟨[Event.logError ("Failed to initialize settings or Adafruit IO client: " ++ m)],
      some 1, [], none⟩
  | .sensorFail m =>
    ⟨[Event.logError ("Failed to initialize sensor: " ++ m)], some 1, [], none⟩
  | .ok s =>
    let r := runLoop s ⟨0, initialAlertStates⟩ script
    ⟨[], none, r.2, some r.1⟩

/-- Outcome of the whole process as wired in `__main__`
(src lines 335-350). -/
structure ProcessOutcome where
  threadExit : Option ℕ
  processExit : Option ℕ
  loopEntered : Bool
  deriving DecidableEq

/-- `__main__` (src lines 335-350): `run_monitoring` is the target of a
`threading.Thread`.  In CPython a `SystemExit` raised inside a worker
thread is caught by the thread bootstrap and only ends that thread, so
`sys.exit(1)` in `run_monitoring` never terminates the process: the main
thread continues into `app.run(...)` and the process exit status is not
affected by the monitoring thread's outcome (`processExit = none`). -/
def pythonMain (init : InitOutcome)
    (script : List (Settings × TickInput)) : ProcessOutcome :=
  let r := run_monitoring init script
  ⟨r.exitCode, none, r.exitCode.isNone⟩

/-- Outcome of one `adafruit_io_client.send_data` call: success, a raised
`RequestError`, or any other raised exception (src line 153). -/
inductive SendOutcome
  | success
  | requestError (msg : String)
  | otherError (msg : String)
  deriving DecidableEq

/-- How the body of `send_to_adafruit` ends: a `return True`, a
`RequestError` reaching the outer handler, another exception reaching the
outer handler, or the `for` loop running out of attempts (then the Python
function falls through returning `None`; unreachable when at least one
attempt remains, since the last failing attempt re-raises). -/
inductive SendResult
  | ok
  | requestFailed (msg : String)
  | otherFailed (msg : String)
  | fellThrough
  deriving DecidableEq

/-- The `for attempt in range(max_retries)` loop of `send_to_adafruit`
(src/SingleSCD40.py lines 150-161).  `sink i` is what the `i`-th
`send_data` call does.  `remaining` counts the attempts the `range` still
holds; on a `RequestError` with further attempts left the code sleeps
`retry_delay = 2` seconds and retries, on the last attempt it re-raises.
Returns the result, the number of `send_data` calls made, and the list of
sleep durations in order. -/
def attemptLoop (sink : ℕ → SendOutcome) :
    (attempt remaining : ℕ) → SendResult × ℕ × List ℚ
  | _, 0 => (.fellThrough, 0, [])
  | attempt, remaining + 1 =>
    match sink attempt with
    | .success => (.ok, 1, [])
    | .otherError m => (.otherFailed m, 1, [])
    | .requestError m =>
      if remaining = 0 then (.requestFailed m, 1, [])
      else
        let r := attemptLoop sink (attempt + 1) remaining
        (r.1, r.2.1 + 1, 2 :: r.2.2)

/-- `send_to_adafruit` (src/SingleSCD40.py lines 126-168): when the global
client is uninitialized, log and return `False` with no call; otherwise run
the attempt loop with `max_retries = 3`; the outer handlers turn both a
re-raised `RequestError` and any other exception into `log_error` plus
`return False` — nothing escapes to the caller.  Returns `(returned value,
number of send_data calls, sleep durations)`. -/
def send_to_adafruit (initialized : Bool) (sink : ℕ → SendOutcome) :
    Bool × ℕ × List ℚ :=
  if initialized then
    let r := attemptLoop sink 0 3
    (match r.1 with
     | .ok => true
     | _ => false, r.2)
  else (false, 0, [])

/-- A typed settings value as produced by `read_settings_from_conf`:
`getfloat` keys are floats, `getint` keys ints, the rest strings
(src lines 100-107). -/
inductive SVal
  | fl (x : ℚ)
  | iv (n : ℤ)
  | st (s : String)
  deriving DecidableEq

/-- `dict` lookup on the current settings, as `current_settings[key]`
performs it (first matching key of the association list; the Python dict
has unique keys). -/
def lookupKey (k : String) : List (String × SVal) → Option SVal
  | [] => none
  | p :: rest => if p.1 = k then some p.2 else lookupKey k rest

/-- The per-key type coercion of the settings POST handler
(src/SingleSCD40.py lines 193-199): an existing float key parses the form
string as float, an int key as int, a string key is kept with
`value.strip()`.  The Python `float`/`int` parsers are abstract inputs
`pf`/`pint` of the model; `none` models a raised `ValueError`. -/
def coerceValue (pf : String → Option ℚ) (pint : String → Option ℤ)
    (cur : SVal) (v : String) : Option SVal :=
  match cur with
  | .fl _ => (pf v).map SVal.fl
  | .iv _ => (pint v).map SVal.iv
  | .st _ => some (.st v.trim)

/-- HTTP response of the settings POST handler: `200` success, `400` with
the offending key on a `ValueError` (src line 201), `500` on any other
exception — in particular the `KeyError` raised by `current_settings[key]`
for an unknown key, caught by the outer handler (src lines 215-217). -/
inductive PostResponse
  | ok200
  | badRequest400 (key : String)
  | serverError500
  deriving DecidableEq

/-- The `for key, value in request.form.items()` loop of `settings_route`
(src/SingleSCD40.py lines 190-201), building `new_settings`: the `action`
entry is skipped; each other entry is coerced to the type its key already
has in `current_settings`; the first `ValueError` returns the 400 response
naming that key; a missing key raises `KeyError`, which the outer handler
turns into a 500 response. -/
def processKeys (pf : String → Option ℚ) (pint : String → Option ℤ)
    (current : List (String × SVal)) :
    List (String × String) → Except PostResponse (List (String × SVal))
  | [] => .ok []
  | (k, v) :: rest =>
    if k = "action" then processKeys pf pint current rest
    else
      match lookupKey k current with
      | none => .error .serverError500
      | some cur =>
        match coerceValue pf pint cur v with
        | none => .error (.badRequest400 k)
        | some nv => (processKeys pf pint current rest).map fun tail => (k, nv) :: tail

/-- The POST branch of `settings_route` (src/SingleSCD40.py lines 181-217):
coerce every submitted entry; on the first failure return with the stored
configuration untouched; on success replace the configuration file's
`[General]` section with exactly `new_settings` (src lines 204-207 write
`config['General'] = {str(k): str(v) for k, v in new_settings.items()}` —
only the submitted keys).  Returns the stored record after the request and
the response. -/
def settingsPost (pf : String → Option ℚ) (pint : String → Option ℤ)
    (current : List (String × SVal)) (form : List (String × String)) :
    List (String × SVal) × PostResponse :=
  match processKeys pf pint current form with
  | .error resp => (current, resp)
  | .ok newSettings => (newSettings, .ok200)

/-- Selects, out of the three boolean conditions computed on one evaluated
cycle (src lines 283, 295, 307), the one for quantity `q`. -/
def condSel (q : Quantity) (c1 c2 c3 : Bool) : Bool :=
  match q with
  | .high_temp => c1
  | .low_temp => c2
  | .high_co2 => c3

/-- Recognizes a `time.sleep` event. -/
def isSleepEvent : Event → Bool
  | .sleepSecs _ => true
  | _ => false

/-- Number of `time.sleep` calls in a trace; every completed loop
iteration performs exactly one (src lines 323, 326). -/
def sleepCount (evs : List Event) : ℕ := (evs.filter isSleepEvent).length

/-- Modelled from the spec: "the loop must re-read thresholds/poll-interval
from the Configuration Store at the start of every Polling tick" — a
Polling tick whose comparisons use the Configuration Store contents of this
tick rather than the dictionary read at Initializing.  Used to compare the
source's tick against the spec's required behavior. -/
def pollTickSpecReload (store : Settings) (st : LoopState) (current_time : ℚ)
    (poll : SensorPoll) : LoopState × List Event :=
  pollTick store store st current_time poll

/-- Concrete settings for witnesses: high-temp threshold 85 F, low 40 F,
CO2 2000 ppm, 1-minute cadence. -/
def demoSettings : Settings :=
  ⟨"Castle", 1, 85, 40, 2000, 3, "#alerts", "castle-sensors", "temp", "humidity", "co2"⟩

/-- The same record after a control-surface write raised the high-temp
threshold to 100 F. -/
def hotStore : Settings :=
  ⟨"Castle", 1, 100, 40, 2000, 3, "#alerts", "castle-sensors", "temp", "humidity", "co2"⟩

/-- A further store state, threshold 120 F, same Slack channel. -/
def coldStore : Settings :=
  ⟨"Castle", 1, 120, 40, 2000, 3, "#alerts", "castle-sensors", "temp", "humidity", "co2"⟩

/-- A reading of 90 F (290/9 C), 50 % humidity, 500 ppm CO2. -/
def demoReading : Reading := ⟨290 / 9, 50, 500⟩

/-- Loop state at loop entry (src lines 266-267 and 44-48). -/
def st0 : LoopState := ⟨0, initialAlertStates⟩

/-- A telemetry sink raising `RequestError` on every call. -/
def alwaysRequestError : ℕ → SendOutcome := fun _ => SendOutcome.requestError "timeout"

/-- A telemetry sink raising a non-`RequestError` exception on every call. -/
def alwaysOtherError : ℕ → SendOutcome := fun _ => SendOutcome.otherError "bad payload"

/-- A concrete stand-in for Python `float(...)`: parses exactly "91". -/
def demoParseFloat : String → Option ℚ :=
  fun s => if s = "91" then some 91 else none

/-- A concrete stand-in for Python `int(...)`: parses exactly "5". -/
def demoParseInt : String → Option ℤ := fun s => if s = "5" then some 5 else none

/-- A concrete stored configuration with one string, one float and one int
key. -/
def demoCurrent : List (String × SVal) :=
  [("SENSOR_LOCATION_NAME", SVal.st "Castle"),
   ("SENSOR_THRESHOLD_TEMP", SVal.fl 85),
   ("MINUTES_BETWEEN_READS", SVal.iv 1)]

/-- A POST form whose second entry fails float coercion. -/
def demoBadForm : List (String × String) :=
  [("SENSOR_LOCATION_NAME", " Lobby "), ("SENSOR_THRESHOLD_TEMP", "abc")]

/-- A POST form that coerces successfully but omits the string key
`SENSOR_LOCATION_NAME` held by the stored configuration. -/
def demoNumForm : List (String × String) :=
  [("SENSOR_THRESHOLD_TEMP", "91"), ("MINUTES_BETWEEN_READS", "5"),
   ("action", "reboot")]

/-! ## Helper lemmas about the alert state machine -/

/-- After one check the stored flag always equals the computed condition:
when they differ the code assigns the condition, when they agree the old
value already is the condition. -/
theorem checkAlert_fst (c a : Bool) : (checkAlert c a).1 = c := by
  cases c <;> cases a <;> rfl

/-- The state after the three checks is exactly the triple of computed
conditions. -/
theorem evalCore_fst (c1 c2 c3 : Bool) (ch : String) (st : AlertStates) :
    (evalCore c1 c2 c3 ch st).1 = ⟨c1, c2, c3⟩ := by
  obtain ⟨a, b, c⟩ := st
  cases c1 <;> cases c2 <;> cases c3 <;> cases a <;> cases b <;> cases c <;> rfl

/-- Flag of quantity `q` after the three checks. -/
theorem evalCore_flag (c1 c2 c3 : Bool) (ch : String) (st : AlertStates)
    (q : Quantity) :
    flagOf q (evalCore c1 c2 c3 ch st).1 = condSel q c1 c2 c3 := by
  obtain ⟨a, b, c⟩ := st
  cases q <;> cases c1 <;> cases c2 <;> cases c3 <;>
    cases a <;> cases b <;> cases c <;> rfl

/-- The messages about quantity `q` emitted by the three checks: one
message, of polarity the new flag, when the condition flipped the flag;
none otherwise. -/
theorem evalCore_notifsFor (c1 c2 c3 : Bool) (ch : String) (st : AlertStates)
    (q : Quantity) :
    notifsFor q (evalCore c1 c2 c3 ch st).2 =
      if condSel q c1 c2 c3 != flagOf q st
      then [⟨q, condSel q c1 c2 c3, ch⟩] else [] := by
  obtain ⟨a, b, c⟩ := st
  cases q <;> cases c1 <;> cases c2 <;> cases c3 <;>
    cases a <;> cases b <;> cases c <;> rfl

theorem notifCount_append (q : Quantity) (l1 l2 : List Notification) :
    notifCount q (l1 ++ l2) = notifCount q l1 + notifCount q l2 := by
  simp [notifCount, notifsFor, List.filter_append]

/-- The three decided conditions select to `exceedCond`. -/
theorem condSel_exceed (settings : Settings) (q : Quantity) (tf co2 : ℚ) :
    condSel q (decide (tf ≥ settings.SENSOR_THRESHOLD_TEMP))
      (decide (tf ≤ settings.SENSOR_LOWER_THRESHOLD_TEMP))
      (decide (co2 ≥ settings.SENSOR_CO2_THRESHOLD)) =
      exceedCond settings q tf co2 := by
  cases q <;> rfl

theorem evaluateReading_flag (settings store : Settings) (st : AlertStates)
    (tf co2 : ℚ) (q : Quantity) :
    flagOf q (evaluateReading settings store st tf co2).1 =
      exceedCond settings q tf co2 := by
  unfold evaluateReading
  rw [evalCore_flag, condSel_exceed]

theorem evaluateReading_notifsFor (settings store : Settings)
    (st : AlertStates) (tf co2 : ℚ) (q : Quantity) :
    notifsFor q (evaluateReading settings store st tf co2).2 =
      if exceedCond settings q tf co2 != flagOf q st
      then [⟨q, exceedCond settings q tf co2, store.SLACK_CHANNEL⟩] else [] := by
  unfold evaluateReading
  rw [evalCore_notifsFor, condSel_exceed]

theorem notifCount_evaluateReading (settings store : Settings)
    (st : AlertStates) (tf co2 : ℚ) (q : Quantity) :
    notifCount q (evaluateReading settings store st tf co2).2 =
      if exceedCond settings q tf co2 != flagOf q st then 1 else 0 := by
  rw [notifCount, evaluateReading_notifsFor]
  cases hb : exceedCond settings q tf co2 != flagOf q st <;> simp [hb]

/-- Over any run, the number of messages about `q` equals the number of
value changes of the flag of `q`. -/
theorem notifCount_runReadings (settings store : Settings) (q : Quantity)
    (st : AlertStates) (rs : List Reading) :
    notifCount q (runReadings settings store st rs).2 =
      flagTransitions settings store q st rs := by
  induction rs generalizing st with
  | nil => rfl
  | cons r rs ih =>
    simp only [runReadings, flagTransitions]
    rw [notifCount_append, ih]
    congr 1
    rw [notifCount_evaluateReading, evaluateReading_flag]

/-- Once the flag of `q` agrees with the condition of reading `r`, further
copies of `r` never change it. -/
theorem flagTransitions_replicate_zero (settings store : Settings)
    (q : Quantity) (st : AlertStates) (r : Reading) (m : ℕ)
    (h : flagOf q st =
      exceedCond settings q (celsius_to_fahrenheit r.temperature_c) r.co2) :
    flagTransitions settings store q st (List.replicate m r) = 0 := by
  induction m generalizing st with
  | zero => rfl
  | succ m ih =>
    simp only [List.replicate, flagTransitions]
    rw [evaluateReading_flag, ← h, bne_self_eq_false, if_neg (by simp)]
    rw [ih _ (by rw [evaluateReading_flag])]

theorem flagTransitions_replicate_le_one (settings store : Settings)
    (q : Quantity) (st : AlertStates) (r : Reading) (n : ℕ) :
    flagTransitions settings store q st (List.replicate n r) ≤ 1 := by
  cases n with
  | zero => simp [List.replicate, flagTransitions]
  | succ m =>
    simp only [List.replicate, flagTransitions]
    rw [flagTransitions_replicate_zero settings store q _ r m
      (by rw [evaluateReading_flag])]
    split <;> simp

/-! ## Evaluation lemmas for the concrete demo inputs -/

/-- 290/9 C is exactly 90 F. -/
theorem demo_tempF : celsius_to_fahrenheit demoReading.temperature_c = 90 := by
  norm_num [celsius_to_fahrenheit, demoReading]

/-- 90 F exceeds the 85 F high-temperature threshold of `demoSettings`. -/
theorem demo_cond_high :
    exceedCond demoSettings Quantity.high_temp
      (celsius_to_fahrenheit demoReading.temperature_c) demoReading.co2 = true := by
  rw [exceedCond, demo_tempF]
  norm_num [demoSettings]

/-! ## Claim theorems -/

/-- C1: on every evaluated poll cycle and for each monitored quantity, the
alert checks compare the current boolean condition against the stored
flag: if they differ the flag flips to the condition and exactly one
message is emitted for that quantity — an alert when the new state is
armed, a recovery when not (the message polarity is the new flag value);
if they are equal nothing is emitted and the flag is unchanged; and over
any sequence of readings the number of messages about a quantity equals
the number of transitions of its flag. -/
theorem C1_edge_triggered_alerts (settings store : Settings)
    (st : AlertStates) (r : Reading) (q : Quantity) (rs : List Reading) :
    (exceedCond settings q (celsius_to_fahrenheit r.temperature_c) r.co2 ≠
        flagOf q st →
      flagOf q (evaluateReading settings store st
          (celsius_to_fahrenheit r.temperature_c) r.co2).1 =
        exceedCond settings q (celsius_to_fahrenheit r.temperature_c) r.co2 ∧
      notifsFor q (evaluateReading settings store st
          (celsius_to_fahrenheit r.temperature_c) r.co2).2 =
        [⟨q, exceedCond settings q (celsius_to_fahrenheit r.temperature_c) r.co2,
          store.SLACK_CHANNEL⟩]) ∧
    (exceedCond settings q (celsius_to_fahrenheit r.temperature_c) r.co2 =
        flagOf q st →
      flagOf q (evaluateReading settings store st
          (celsius_to_fahrenheit r.temperature_c) r.co2).1 = flagOf q st ∧
      notifsFor q (evaluateReading settings store st
          (celsius_to_fahrenheit r.temperature_c) r.co2).2 = []) ∧
    notifCount q (runReadings settings store st rs).2 =
      flagTransitions settings store q st rs := by
  refine ⟨fun h => ⟨evaluateReading_flag .., ?_⟩,
    fun h => ⟨by rw [evaluateReading_flag, h], ?_⟩,
    notifCount_runReadings ..⟩
  · rw [evaluateReading_notifsFor, if_pos (by simpa using h)]
  · rw [evaluateReading_notifsFor, if_neg (by simpa using h)]

theorem C1_edge_triggered_alerts_witness :
    (exceedCond demoSettings Quantity.high_temp
        (celsius_to_fahrenheit demoReading.temperature_c) demoReading.co2 ≠
      flagOf Quantity.high_temp initialAlertStates) ∧
    (flagOf Quantity.high_temp (evaluateReading demoSettings demoSettings
        initialAlertStates (celsius_to_fahrenheit demoReading.temperature_c)
        demoReading.co2).1 =
      exceedCond demoSettings Quantity.high_temp
        (celsius_to_fahrenheit demoReading.temperature_c) demoReading.co2 ∧
    notifsFor Quantity.high_temp (evaluateReading demoSettings demoSettings
        initialAlertStates (celsius_to_fahrenheit demoReading.temperature_c)
        demoReading.co2).2 =
      [⟨Quantity.high_temp,
        exceedCond demoSettings Quantity.high_temp
          (celsius_to_fahrenheit demoReading.temperature_c) demoReading.co2,
        demoSettings.SLACK_CHANNEL⟩]) :=
  ⟨by simp [demo_cond_high, flagOf, initialAlertStates],
    (C1_edge_triggered_alerts demoSettings demoSettings initialAlertStates
      demoReading Quantity.high_temp []).1
      (by simp [demo_cond_high, flagOf, initialAlertStates])⟩

/-- C6: with the edge-triggered checks, feeding the same reading any
number of times emits at most one message per monitored quantity. -/
theorem C6_no_double_fire (settings store : Settings) (st : AlertStates)
    (r : Reading) (n : ℕ) (q : Quantity) :
    notifCount q (runReadings settings store st (List.replicate n r)).2 ≤ 1 := by
  rw [notifCount_runReadings]
  exact flagTransitions_replicate_le_one ..

/-- C7: a poll tick on which the sensor reports no data ready changes
nothing: no readings-log entry, no alert evaluation, no Slack send, no
Adafruit IO call, and `last_read_time` (with the whole loop state) is left
as it was. -/
theorem C7_skip_on_no_data (settings store : Settings) (st : LoopState)
    (current_time : ℚ) :
    pollTick settings store st current_time SensorPoll.notReady = (st, []) := by
  unfold pollTick
  split <;> rfl

/-- C10: immediately after the alert checks of an evaluated poll cycle,
each of the three flags equals the current exceedance condition of the
reading, and at startup all three flags are `false`. -/
theorem C10_flags_equal_conditions (settings store : Settings)
    (st : AlertStates) (r : Reading) :
    (evaluateReading settings store st
        (celsius_to_fahrenheit r.temperature_c) r.co2).1 =
      ⟨decide (celsius_to_fahrenheit r.temperature_c ≥
          settings.SENSOR_THRESHOLD_TEMP),
        decide (celsius_to_fahrenheit r.temperature_c ≤
          settings.SENSOR_LOWER_THRESHOLD_TEMP),
        decide (r.co2 ≥ settings.SENSOR_CO2_THRESHOLD)⟩ ∧
    initialAlertStates = ⟨false, false, false⟩ :=
  ⟨evalCore_fst .., rfl⟩

/-- Evaluation of the source's tick with stale Initializing-time settings
(threshold 85 F) while the store already says 100 F: the 90 F reading
fires a high-temperature alert. -/
theorem pollTick_demo_stale :
    pollTick demoSettings hotStore st0 120 (SensorPoll.ready demoReading) =
      (⟨120, ⟨true, false, false⟩⟩,
       [Event.logReading 90 50 500,
        Event.notify ⟨Quantity.high_temp, true, "#alerts"⟩,
        Event.telemetry "castle-sensors" "temp" 90,
        Event.telemetry "castle-sensors" "humidity" 50,
        Event.telemetry "castle-sensors" "co2" 500]) := by
  norm_num [pollTick, evaluateReading, evalCore, checkAlert, st0, demoSettings,
    hotStore, demoReading, initialAlertStates, celsius_to_fahrenheit]

/-- Evaluation of the spec-mandated reloading tick on the same inputs: the
store's new threshold 100 F is not exceeded by 90 F, so no alert fires. -/
theorem pollTick_demo_reload :
    pollTickSpecReload hotStore st0 120 (SensorPoll.ready demoReading) =
      (⟨120, ⟨false, false, false⟩⟩,
       [Event.logReading 90 50 500,
        Event.telemetry "castle-sensors" "temp" 90,
        Event.telemetry "castle-sensors" "humidity" 50,
        Event.telemetry "castle-sensors" "co2" 500]) := by
  norm_num [pollTickSpecReload, pollTick, evaluateReading, evalCore, checkAlert,
    st0, hotStore, demoReading, initialAlertStates, celsius_to_fahrenheit]

/-- C2 fails on the code: after the control surface raises
`SENSOR_THRESHOLD_TEMP` to 100 F in the store, the very next poll tick
still compares against the Initializing-time value 85 F — it emits a
high-temperature alert for a 90 F reading that does not exceed the new
threshold, so its behavior differs from the tick the claim requires. -/
theorem C2_counterexample_stale_threshold :
    Event.notify ⟨Quantity.high_temp, true, "#alerts"⟩ ∈
      (pollTick demoSettings hotStore st0 120 (SensorPoll.ready demoReading)).2 ∧
    Event.notify ⟨Quantity.high_temp, true, "#alerts"⟩ ∉
      (pollTickSpecReload hotStore st0 120 (SensorPoll.ready demoReading)).2 ∧
    pollTick demoSettings hotStore st0 120 (SensorPoll.ready demoReading) ≠
      pollTickSpecReload hotStore st0 120 (SensorPoll.ready demoReading) := by
  rw [pollTick_demo_stale, pollTick_demo_reload]
  refine ⟨by decide, by decide, by decide⟩

/-- C2 amended: the monitoring loop binds thresholds and the poll interval
once, from the settings read at Initializing; the Configuration Store
contents at tick time influence a tick only through the Slack channel that
`send_slack_alert` re-reads — two store states with the same channel give
identical tick behavior, however their thresholds differ. -/
theorem C2_amended_thresholds_read_at_init_only (initS store store' : Settings)
    (st : LoopState) (current_time : ℚ) (p : SensorPoll)
    (h : store.SLACK_CHANNEL = store'.SLACK_CHANNEL) :
    pollTick initS store st current_time p = pollTick initS store' st current_time p := by
  unfold pollTick evaluateReading
  rw [h]

theorem C2_amended_thresholds_read_at_init_only_witness :
    hotStore.SLACK_CHANNEL = coldStore.SLACK_CHANNEL ∧
    pollTick demoSettings hotStore st0 120 (SensorPoll.ready demoReading) =
      pollTick demoSettings coldStore st0 120 (SensorPoll.ready demoReading) :=
  ⟨rfl, C2_amended_thresholds_read_at_init_only demoSettings hotStore coldStore
    st0 120 (SensorPoll.ready demoReading) rfl⟩

/-- C3: with the Adafruit IO client initialized, a sink that raises
`RequestError` on every attempt is called exactly 3 times with a 2-second
sleep between consecutive attempts, and the function returns `False` to
its caller (nothing is raised, no further attempt is made); a sink whose
first call raises a non-`RequestError` exception makes the function return
`False` after exactly 1 call and no sleep — the retry budget is not
consumed. -/
theorem C3_retry_bound (sink sink2 : ℕ → SendOutcome) :
    ((∀ i, ∃ m, sink i = SendOutcome.requestError m) →
      send_to_adafruit true sink = (false, 3, [2, 2])) ∧
    (∀ m, sink2 0 = SendOutcome.otherError m →
      send_to_adafruit true sink2 = (false, 1, [])) := by
  constructor
  · intro h
    obtain ⟨m0, h0⟩ := h 0
    obtain ⟨m1, h1⟩ := h 1
    obtain ⟨m2, h2⟩ := h 2
    simp [send_to_adafruit, attemptLoop, h0, h1, h2]
  · intro m h
    simp [send_to_adafruit, attemptLoop, h]

theorem C3_retry_bound_witness :
    send_to_adafruit true alwaysRequestError = (false, 3, [2, 2]) ∧
    send_to_adafruit true alwaysOtherError = (false, 1, []) :=
  ⟨(C3_retry_bound alwaysRequestError alwaysOtherError).1
      (fun _ => ⟨"timeout", rfl⟩),
    (C3_retry_bound alwaysRequestError alwaysOtherError).2 "bad payload" rfl⟩

/-- C9 is the intent but the code misses it: on an Initializing failure
`run_monitoring` logs the cause, never enters the loop, and calls
`sys.exit(1)` — but it runs on a worker thread, where the resulting
`SystemExit` only ends that thread; the process does not exit with a
non-zero status (the Flask main thread keeps serving,
`processExit = none`). -/
theorem C9_init_failure_eval :
    run_monitoring (InitOutcome.settingsFail "connection refused") [] =
      ⟨[Event.logError
          "Failed to initialize settings or Adafruit IO client: connection refused"],
        some 1, [], none⟩ ∧
    pythonMain (InitOutcome.settingsFail "connection refused") [] =
      ⟨some 1, none, false⟩ ∧
    run_monitoring (InitOutcome.sensorFail "no i2c device") [] =
      ⟨[Event.logError "Failed to initialize sensor: no i2c device"],
        some 1, [], none⟩ ∧
    pythonMain (InitOutcome.sensorFail "no i2c device") [] =
      ⟨some 1, none, false⟩ :=
  ⟨rfl, rfl, rfl, rfl⟩

/-- A tick body emits no `time.sleep` event of its own. -/
theorem sleepCount_pollTick (settings store : Settings) (st : LoopState)
    (current_time : ℚ) (p : SensorPoll) :
    sleepCount (pollTick settings store st current_time p).2 = 0 := by
  have hmap : ∀ ns : List Notification,
      (ns.map Event.notify).filter isSleepEvent = [] := by
    intro ns
    induction ns with
    | nil => rfl
    | cons n ns ih => simp [List.filter_cons, isSleepEvent, ih]
  unfold pollTick
  split
  · cases p with
    | notReady => rfl
    | ready r =>
      simp [sleepCount, List.filter_cons, List.filter_append, isSleepEvent, hmap]
  · rfl

/-- Every completed loop iteration performs exactly one `time.sleep`. -/
theorem sleepCount_loopIter (settings store : Settings) (st : LoopState)
    (inp : TickInput) :
    sleepCount (loopIter settings store st inp).2 = 1 := by
  unfold loopIter
  cases h : inp.poll with
  | ok p =>
    have := sleepCount_pollTick settings store st inp.now p
    simp only [sleepCount] at this ⊢
    simp [List.filter_append, this, List.filter_cons, isSleepEvent]
  | error e => rfl

/-- C8: an exception raised inside a poll tick is caught at the tick
boundary: the iteration ends with exactly the error-log line and the fixed
5-second backoff, the loop state is untouched, and the loop goes on — over
any schedule, every scheduled iteration runs to completion (one
`time.sleep` each), errors included; no tick error terminates the loop. -/
theorem C8_tick_errors_contained (settings store : Settings) (st : LoopState)
    (now : ℚ) (e : String) (script : List (Settings × TickInput)) :
    loopIter settings store st ⟨now, Except.error e⟩ =
      (st, [Event.logError ("Error in monitoring loop: " ++ e),
            Event.sleepSecs 5]) ∧
    sleepCount (runLoop settings st script).2 = script.length := by
  refine ⟨rfl, ?_⟩
  induction script generalizing st with
  | nil => rfl
  | cons p rest ih =>
    simp only [runLoop, sleepCount, List.filter_append, List.length_append,
      List.length_cons]
    have h1 := sleepCount_loopIter settings p.1 st p.2
    have h2 := ih (loopIter settings p.1 st p.2).1
    simp only [sleepCount] at h1 h2
    omega

/-! ## Lemmas about the settings POST handler -/

/-- The `action` form entry is skipped (src line 191-192). -/
theorem processKeys_cons_action (pf : String → Option ℚ)
    (pint : String → Option ℤ) (current : List (String × SVal))
    (v0 : String) (rest : List (String × String)) :
    processKeys pf pint current (("action", v0) :: rest) =
      processKeys pf pint current rest := rfl

/-- Stepping a non-`action` form entry. -/
theorem processKeys_cons_ne (pf : String → Option ℚ)
    (pint : String → Option ℤ) (current : List (String × SVal))
    (k0 v0 : String) (rest : List (String × String)) (h0 : k0 ≠ "action") :
    processKeys pf pint current ((k0, v0) :: rest) =
      match lookupKey k0 current with
      | none => Except.error PostResponse.serverError500
      | some cur =>
        match coerceValue pf pint cur v0 with
        | none => Except.error (PostResponse.badRequest400 k0)
        | some nv =>
          (processKeys pf pint current rest).map fun tail => (k0, nv) :: tail := by
  simp only [processKeys]
  rw [if_neg h0]

/-- When some submitted key fails coercion (and every submitted key is
known to the stored record), the whole form loop ends in the 400 response
naming a key that indeed fails coercion. -/
theorem processKeys_fail (pf : String → Option ℚ) (pint : String → Option ℤ)
    (current : List (String × SVal)) (k v : String) (cur : SVal)
    (hk : k ≠ "action") (hl : lookupKey k current = some cur)
    (hc : coerceValue pf pint cur v = none) :
    ∀ form : List (String × String),
      (∀ p ∈ form, p.1 ≠ "action" → (lookupKey p.1 current).isSome) →
      (k, v) ∈ form →
      ∃ k' v' cur', (k', v') ∈ form ∧ k' ≠ "action" ∧
        lookupKey k' current = some cur' ∧
        coerceValue pf pint cur' v' = none ∧
        processKeys pf pint current form =
          Except.error (PostResponse.badRequest400 k') := by
  intro form
  induction form with
  | nil => intro _ hm; cases hm
  | cons hd rest ih =>
    intro hall hm
    obtain ⟨k0, v0⟩ := hd
    by_cases h0 : k0 = "action"
    · subst h0
      have hm' : (k, v) ∈ rest := by
        rcases List.mem_cons.mp hm with heq | hmem
        · exact absurd (congrArg Prod.fst heq) hk
        · exact hmem
      obtain ⟨k', v', cur', a1, a2, a3, a4, a5⟩ :=
        ih (fun p hp hne => hall p (List.mem_cons_of_mem _ hp) hne) hm'
      refine ⟨k', v', cur', List.mem_cons_of_mem _ a1, a2, a3, a4, ?_⟩
      rw [processKeys_cons_action]
      exact a5
    · have hsome : (lookupKey k0 current).isSome :=
        hall (k0, v0) (List.mem_cons_self _ _) h0
      obtain ⟨cur0, hcur0⟩ := Option.isSome_iff_exists.mp hsome
      cases hco : coerceValue pf pint cur0 v0 with
      | none =>
        refine ⟨k0, v0, cur0, List.mem_cons_self _ _, h0, hcur0, hco, ?_⟩
        rw [processKeys_cons_ne pf pint current k0 v0 rest h0]
        simp only [hcur0, hco]
      | some nv =>
        have hm' : (k, v) ∈ rest := by
          rcases List.mem_cons.mp hm with heq | hmem
          · exfalso
            injection heq with e1 e2
            subst e1
            subst e2
            rw [hl] at hcur0
            injection hcur0 with e3
            rw [← e3] at hco
            rw [hc] at hco
            exact Option.noConfusion hco
          · exact hmem
        obtain ⟨k', v', cur', a1, a2, a3, a4, a5⟩ :=
          ih (fun p hp hne => hall p (List.mem_cons_of_mem _ hp) hne) hm'
        refine ⟨k', v', cur', List.mem_cons_of_mem _ a1, a2, a3, a4, ?_⟩
        rw [processKeys_cons_ne pf pint current k0 v0 rest h0]
        simp only [hcur0, hco, a5, Except.map]

/-- An erroring form loop never reports success. -/
theorem processKeys_error_resp (pf : String → Option ℚ)
    (pint : String → Option ℤ) (current : List (String × SVal)) :
    ∀ (form : List (String × String)) (r : PostResponse),
      processKeys pf pint current form = Except.error r →
      r ≠ PostResponse.ok200 := by
  intro form
  induction form with
  | nil => intro r h; exact Except.noConfusion h
  | cons hd rest ih =>
    intro r h
    obtain ⟨k0, v0⟩ := hd
    by_cases h0 : k0 = "action"
    · subst h0
      rw [processKeys_cons_action] at h
      exact ih r h
    · rw [processKeys_cons_ne pf pint current k0 v0 rest h0] at h
      cases hcur : lookupKey k0 current with
      | none =>
        simp only [hcur] at h
        injection h with e
        subst e
        exact fun hh => PostResponse.noConfusion hh
      | some cur0 =>
        simp only [hcur] at h
        cases hco : coerceValue pf pint cur0 v0 with
        | none =>
          simp only [hco] at h
          injection h with e
          subst e
          exact fun hh => PostResponse.noConfusion hh
        | some nv =>
          simp only [hco] at h
          cases hrest : processKeys pf pint current rest with
          | error e0 =>
            simp only [hrest, Except.map] at h
            injection h with e
            subst e
            exact ih e0 hrest
          | ok tail =>
            simp only [hrest, Except.map] at h
            exact Except.noConfusion h

/-- On success, keys that were not submitted (and the `action` key) are
absent from the record the handler persists. -/
theorem processKeys_ok_lookup_none (pf : String → Option ℚ)
    (pint : String → Option ℤ) (current : List (String × SVal))
    (key : String) :
    ∀ (form : List (String × String)) (out : List (String × SVal)),
      processKeys pf pint current form = Except.ok out →
      (key = "action" ∨ ∀ v, (key, v) ∉ form) →
      lookupKey key out = none := by
  intro form
  induction form with
  | nil =>
    intro out h _
    injection h with e
    rw [← e]
    rfl
  | cons hd rest ih =>
    intro out h hkey
    obtain ⟨k0, v0⟩ := hd
    have hkey' : key = "action" ∨ ∀ v, (key, v) ∉ rest := by
      rcases hkey with h1 | h1
      · exact Or.inl h1
      · exact Or.inr fun v hv => h1 v (List.mem_cons_of_mem _ hv)
    by_cases h0 : k0 = "action"
    · subst h0
      rw [processKeys_cons_action] at h
      exact ih out h hkey'
    · rw [processKeys_cons_ne pf pint current k0 v0 rest h0] at h
      cases hcur : lookupKey k0 current with
      | none => simp only [hcur] at h; exact Except.noConfusion h
      | some cur0 =>
        simp only [hcur] at h
        cases hco : coerceValue pf pint cur0 v0 with
        | none => simp only [hco] at h; exact Except.noConfusion h
        | some nv =>
          simp only [hco] at h
          cases hrest : processKeys pf pint current rest with
          | error e0 =>
            simp only [hrest, Except.map] at h
            exact Except.noConfusion h
          | ok tail =>
            simp only [hrest, Except.map] at h
            injection h with e
            have hne : k0 ≠ key := by
              rcases hkey with h1 | h1
              · rw [h1]; exact h0
              · intro e2
                exact h1 v0 (by rw [← e2]; exact List.mem_cons_self _ _)
            rw [← e]
            show lookupKey key ((k0, nv) :: tail) = none
            simp only [lookupKey, if_neg hne]
            exact ih tail hrest hkey'

/-- On success, every submitted non-`action` key appears in the persisted
record with its coerced value. -/
theorem processKeys_ok_lookup_mem (pf : String → Option ℚ)
    (pint : String → Option ℤ) (current : List (String × SVal))
    (k v : String) (cur : SVal) (hk : k ≠ "action")
    (hl : lookupKey k current = some cur) :
    ∀ (form : List (String × String)) (out : List (String × SVal)),
      (form.map Prod.fst).Nodup →
      processKeys pf pint current form = Except.ok out →
      (k, v) ∈ form →
      ∃ nv, coerceValue pf pint cur v = some nv ∧
        lookupKey k out = some nv := by
  intro form
  induction form with
  | nil => intro out _ _ hm; cases hm
  | cons hd rest ih =>
    intro out hnodup h hm
    obtain ⟨k0, v0⟩ := hd
    have hnd : k0 ∉ rest.map Prod.fst ∧ (rest.map Prod.fst).Nodup := by
      rw [List.map_cons] at hnodup
      exact List.nodup_cons.mp hnodup
    by_cases h0 : k0 = "action"
    · subst h0
      rw [processKeys_cons_action] at h
      have hm' : (k, v) ∈ rest := by
        rcases List.mem_cons.mp hm with heq | hmem
        · exact absurd (congrArg Prod.fst heq) hk
        · exact hmem
      exact ih out hnd.2 h hm'
    · rw [processKeys_cons_ne pf pint current k0 v0 rest h0] at h
      cases hcur : lookupKey k0 current with
      | none => simp only [hcur] at h; exact Except.noConfusion h
      | some cur0 =>
        simp only [hcur] at h
        cases hco : coerceValue pf pint cur0 v0 with
        | none => simp only [hco] at h; exact Except.noConfusion h
        | some nv0 =>
          simp only [hco] at h
          cases hrest : processKeys pf pint current rest with
          | error e0 =>
            simp only [hrest, Except.map] at h
            exact Except.noConfusion h
          | ok tail =>
            simp only [hrest, Except.map] at h
            injection h with e
            rcases List.mem_cons.mp hm with heq | hmem
            · injection heq with e1 e2
              subst e1
              subst e2
              rw [hl] at hcur
              injection hcur with e3
              rw [← e]
              refine ⟨nv0, ?_, ?_⟩
              · rw [e3]; exact hco
              · simp [lookupKey]
            · have hne : k0 ≠ k := by
                intro e2
                subst e2
                exact hnd.1 (List.mem_map_of_mem Prod.fst hmem)
              obtain ⟨nv, hnv, hlk⟩ := ih tail hnd.2 hrest hmem
              rw [← e]
              refine ⟨nv, hnv, ?_⟩
              simp only [lookupKey, if_neg hne]
              exact hlk

/-- C4: a POST whose submitted values include one that fails coercion to
the type its key already has (every submitted key being present in the
stored record) is rejected as a whole: the stored configuration is
returned unchanged and the response is the 400 client error naming a key
whose value indeed fails coercion. -/
theorem C4_atomic_reject_on_coercion_failure (pf : String → Option ℚ)
    (pint : String → Option ℤ) (current : List (String × SVal))
    (form : List (String × String)) (k v : String) (cur : SVal)
    (hall : ∀ p ∈ form, p.1 ≠ "action" → (lookupKey p.1 current).isSome)
    (hm : (k, v) ∈ form) (hk : k ≠ "action")
    (hl : lookupKey k current = some cur)
    (hc : coerceValue pf pint cur v = none) :
    (settingsPost pf pint current form).1 = current ∧
    ∃ k' v' cur', (k', v') ∈ form ∧ k' ≠ "action" ∧
      lookupKey k' current = some cur' ∧
      coerceValue pf pint cur' v' = none ∧
      (settingsPost pf pint current form).2 = PostResponse.badRequest400 k' := by
  obtain ⟨k', v', cur', a1, a2, a3, a4, a5⟩ :=
    processKeys_fail pf pint current k v cur hk hl hc form hall hm
  refine ⟨?_, k', v', cur', a1, a2, a3, a4, ?_⟩ <;> simp [settingsPost, a5]

theorem C4_atomic_reject_on_coercion_failure_witness :
    (∀ p ∈ demoBadForm, p.1 ≠ "action" →
      (lookupKey p.1 demoCurrent).isSome) ∧
    ("SENSOR_THRESHOLD_TEMP", "abc") ∈ demoBadForm ∧
    "SENSOR_THRESHOLD_TEMP" ≠ "action" ∧
    lookupKey "SENSOR_THRESHOLD_TEMP" demoCurrent = some (SVal.fl 85) ∧
    coerceValue demoParseFloat demoParseInt (SVal.fl 85) "abc" = none ∧
    ((settingsPost demoParseFloat demoParseInt demoCurrent demoBadForm).1 =
        demoCurrent ∧
      ∃ k' v' cur', (k', v') ∈ demoBadForm ∧ k' ≠ "action" ∧
        lookupKey k' demoCurrent = some cur' ∧
        coerceValue demoParseFloat demoParseInt cur' v' = none ∧
        (settingsPost demoParseFloat demoParseInt demoCurrent demoBadForm).2 =
          PostResponse.badRequest400 k') :=
  ⟨by decide, by decide, by decide, by decide, by decide,
    C4_atomic_reject_on_coercion_failure demoParseFloat demoParseInt demoCurrent
      demoBadForm "SENSOR_THRESHOLD_TEMP" "abc" (SVal.fl 85)
      (by decide) (by decide) (by decide) (by decide) (by decide)⟩

/-- C5 fails on the code: a successful write whose form omits a key that
the stored configuration holds does not preserve that key — the handler
replaces the whole `[General]` section with exactly the submitted entries,
so `SENSOR_LOCATION_NAME` is present before the write and gone after it. -/
theorem C5_counterexample_dropped_key :
    (settingsPost demoParseFloat demoParseInt demoCurrent demoNumForm).2 =
      PostResponse.ok200 ∧
    (lookupKey "SENSOR_LOCATION_NAME" demoCurrent).isSome = true ∧
    lookupKey "SENSOR_LOCATION_NAME"
      (settingsPost demoParseFloat demoParseInt demoCurrent demoNumForm).1 =
      none := by decide

/-- C5 amended: on a successful write the persisted record consists of
exactly the submitted non-`action` entries with their coerced values —
each submitted key maps to its coerced value, every key not submitted is
absent (keys held by the stored configuration but omitted from the form
are dropped), and the `action` key is never persisted. -/
theorem C5_amended_persists_exactly_submitted (pf : String → Option ℚ)
    (pint : String → Option ℤ) (current persisted : List (String × SVal))
    (form : List (String × String))
    (hnodup : (form.map Prod.fst).Nodup)
    (hok : settingsPost pf pint current form = (persisted, PostResponse.ok200)) :
    (∀ k v cur, (k, v) ∈ form → k ≠ "action" →
      lookupKey k current = some cur →
      ∃ nv, coerceValue pf pint cur v = some nv ∧
        lookupKey k persisted = some nv) ∧
    (∀ k, (∀ v, (k, v) ∉ form) → lookupKey k persisted = none) ∧
    lookupKey "action" persisted = none := by
  have hpk : processKeys pf pint current form = Except.ok persisted := by
    cases hp : processKeys pf pint current form with
    | error r =>
      unfold settingsPost at hok
      rw [hp] at hok
      injection hok with e1 e2
      exact absurd e2 (processKeys_error_resp pf pint current form r hp)
    | ok out =>
      unfold settingsPost at hok
      rw [hp] at hok
      injection hok with e1 e2
      rw [e1]
  refine ⟨fun k v cur hm hk hl =>
      processKeys_ok_lookup_mem pf pint current k v cur hk hl form persisted
        hnodup hpk hm,
    fun k hkv =>
      processKeys_ok_lookup_none pf pint current k form persisted hpk
        (Or.inr hkv),
    processKeys_ok_lookup_none pf pint current "action" form persisted hpk
      (Or.inl rfl)⟩

theorem C5_amended_persists_exactly_submitted_witness :
    ((demoNumForm.map Prod.fst).Nodup ∧
      settingsPost demoParseFloat demoParseInt demoCurrent demoNumForm =
        ([("SENSOR_THRESHOLD_TEMP", SVal.fl 91),
          ("MINUTES_BETWEEN_READS", SVal.iv 5)], PostResponse.ok200)) ∧
    ((∀ k v cur, (k, v) ∈ demoNumForm → k ≠ "action" →
        lookupKey k demoCurrent = some cur →
        ∃ nv, coerceValue demoParseFloat demoParseInt cur v = some nv ∧
          lookupKey k [("SENSOR_THRESHOLD_TEMP", SVal.fl 91),
            ("MINUTES_BETWEEN_READS", SVal.iv 5)] = some nv) ∧
      (∀ k, (∀ v, (k, v) ∉ demoNumForm) →
        lookupKey k [("SENSOR_THRESHOLD_TEMP", SVal.fl 91),
          ("MINUTES_BETWEEN_READS", SVal.iv 5)] = none) ∧
      lookupKey "action" [("SENSOR_THRESHOLD_TEMP", SVal.fl 91),
        ("MINUTES_BETWEEN_READS", SVal.iv 5)] = none) :=
  ⟨⟨by decide, by decide⟩,
    C5_amended_persists_exactly_submitted demoParseFloat demoParseInt
      demoCurrent
      [("SENSOR_THRESHOLD_TEMP", SVal.fl 91),
        ("MINUTES_BETWEEN_READS", SVal.iv 5)]
      demoNumForm (by decide) (by decide)⟩

end SCD40
